import Mathlib

/-
Shallow embedding of the AI Travel Itinerary Planner (src/app.py).

The program is a Streamlit app.  Its session state is a dict matching the
GraphState TypedDict (app.py lines 161-172), seeded at lines 198-211.  Six
generator functions (chat_node, fetch_useful_links, food_culture_recommender,
generate_itinerary, packing_list_generator, recommend_activities,
weather_forecaster) each build a prompt from the state, issue exactly one
external provider call inside a try block, and return a partial-update dict
that the UI merges into the session state with dict.update.

External boundaries are modelled as function parameters:
  - the LLM (llm.invoke(prompt).content, which can raise) is a function
    LLM := String -> Except String String, the error carrying str(e);
  - the Serper search (search.results(query), which can raise) is a function
    SearchFn := String -> Except String SearchResponse;
  - json.loads on a string (raises JSONDecodeError on bad input) is a
    function String -> Option Json.
Python str.strip() is modelled by pyStrip, which removes leading and
trailing whitespace characters (ASCII whitespace; the unicode extras of
the Python whitespace set are not exercised by any claim).

Each generator returns its update paired with the list of prompts it issued
to its provider, so that the number of external calls per invocation is
part of the model.
-/

namespace TravelPlanner

/-- JSON values as produced by json.loads.  An object is a list of
key-value bindings; a dict built by json.loads resolves duplicate keys
with the later binding winning, which jsonGet mirrors. -/
inductive Json where
  | null
  | bool (b : Bool)
  | num (n : Int)
  | str (s : String)
  | arr (elems : List Json)
  | obj (fields : List (String × Json))

/-- Python dict lookup d.get(key) on a dict built from a parsed JSON object:
the last binding for a key wins. -/
def jsonGet : List (String × Json) → String → Option Json
  | [], _ => none
  | (k, v) :: rest, key =>
    match jsonGet rest key with
    | some w => some w
    | none => if k = key then some v else none

/-- The preferences dict built by the submission handler (app.py 265-275).
The handler always populates every key, and the generators are reachable
only after a submission (the UI gates them behind a non-empty itinerary),
so the dict-with-defaults reads in the generators
(state[\x27preferences\x27].get(key, default)) are modelled as plain field
reads of this total record. -/
structure Preferences where
  destination : String
  month : String
  duration : Nat
  num_people : String
  holiday_type : String
  budget_type : String
  accommodation : String
  visa_status_options : String
  comments : String
deriving DecidableEq, Repr

/-- A {title, link} record as stored in useful_links (app.py 85). -/
structure Link where
  title : String
  link : String
deriving DecidableEq, Repr

/-- One organic result of the search response; title and link keys may be
absent (result.get with defaults at app.py 85). -/
structure SearchResult where
  title : Option String
  link : Option String
deriving DecidableEq, Repr

/-- The search response dict; the organic key may be absent
(search_results.get("organic", []) at app.py 83). -/
structure SearchResponse where
  organic : Option (List SearchResult)
deriving DecidableEq, Repr

/-- One {question, response} entry of the chat transcript (app.py 70).
The response is whatever parsed.get returned, which need not be a string,
hence Json. -/
structure ChatEntry where
  question : String
  response : Json

/-- The session-state dict st.session_state.state.  Its schema keys are
those of the GraphState TypedDict (app.py 161-172); the warning key is not
part of the schema and is absent until some failing generator update first
adds it, hence Option. -/
structure GraphState where
  preferences_text : String
  preferences : Preferences
  itinerary : String
  activity_suggestions : String
  useful_links : List Link
  weather_forecast : String
  packing_list : String
  food_culture_info : String
  chat_history : List ChatEntry
  user_question : String
  chat_response : Json
  warning : Option String

/-- The text-generation provider: llm.invoke(prompt).content, with error e
modelling a raised exception whose str(e) is e. -/
def LLM : Type := String → Except String String

/-- The search provider: search.results(query), with error e modelling a
raised exception whose str(e) is e. -/
def SearchFn : Type := String → Except String SearchResponse

/-- Python json.loads restricted to its observable outcome: some parsed
value, or none when it raises json.JSONDecodeError. -/
def JsonLoads : Type := String → Option Json

/-- Removal of leading whitespace characters from a character list. -/
def dropLeadingWs : List Char → List Char
  | [] => []
  | c :: cs => if c.isWhitespace then dropLeadingWs cs else c :: cs

/-- Python str.strip(): the text with leading and trailing whitespace
removed (trailing whitespace is removed by reversing, dropping leading
whitespace, and reversing back). -/
def pyStrip (s : String) : String :=
  String.mk (((dropLeadingWs s.data).reverse |> dropLeadingWs).reverse)

/-- Escape of quote and backslash characters as json.dumps performs on
string values (control-character escapes omitted: no claim exercises
them). -/
def jsonEscape (s : String) : String :=
  s.foldl
    (fun acc c =>
      if c = '\\' then acc ++ "\\\\"
      else if c = '\"' then acc ++ "\\\"" else acc ++ c.toString) ""

/-- A JSON string literal for json.dumps output. -/
def jstr (s : String) : String := "\"" ++ jsonEscape s ++ "\""

/-- json.dumps(preferences, indent=2): the keys in the insertion order of
the dict literal at app.py 265-275, each on its own 2-space-indented line. -/
def prefsJson (p : Preferences) : String :=
  "\x7b\n  \"destination\": " ++ jstr p.destination ++
  ",\n  \"month\": " ++ jstr p.month ++
  ",\n  \"duration\": " ++ toString p.duration ++
  ",\n  \"num_people\": " ++ jstr p.num_people ++
  ",\n  \"holiday_type\": " ++ jstr p.holiday_type ++
  ",\n  \"budget_type\": " ++ jstr p.budget_type ++
  ",\n  \"accommodation\": " ++ jstr p.accommodation ++
  ",\n  \"visa_status_options\": " ++ jstr p.visa_status_options ++
  ",\n  \"comments\": " ++ jstr p.comments ++
  "\n\x7d"

/-- The chat prompt f-string (app.py 52-62); the doubled braces of the
source produce the literal braces around the chat_response example. -/
def chatPrompt (s : GraphState) : String :=
  "\n    Context:\n    Preferences: " ++ prefsJson s.preferences ++
  "\n    Itinerary: " ++ s.itinerary ++
  "\n\n    User Question:\n    " ++ s.user_question ++
  "\n\n    Respond conversationally with insights or suggestions : keep your response brief\n    \x7b \"chat_response\": \"Your response here\" \x7d\n    "

/-- The search query f-string (app.py 80). -/
def linksQuery (s : GraphState) : String :=
  "Travel tips and guides for " ++ s.preferences.destination ++ " in " ++
  s.preferences.month

/-- The food and culture prompt f-string (app.py 94-99). -/
def foodPrompt (s : GraphState) : String :=
  "\n    For a trip to " ++ s.preferences.destination ++ " with a " ++
  s.preferences.budget_type ++
  " budget:\n    1. Suggest popular local dishes and recommended dining options.\n    2. Provide important cultural norms, etiquette tips, and things travelers should be aware of.\n    Format the response with clear sections for \x27Food & Dining\x27 and \x27Culture & Etiquette\x27.\n    "

/-- The itinerary prompt f-string (app.py 109-114). -/
def itineraryPrompt (s : GraphState) : String :=
  "\n    Using the following preferences, create a detailed itinerary:\n    " ++
  prefsJson s.preferences ++
  "\n\n    Include sections for each day, dining options, and downtime.\n    "

/-- The packing-list prompt f-string (app.py 122-125). -/
def packingPrompt (s : GraphState) : String :=
  "\n    Generate a comprehensive packing list for a " ++
  s.preferences.holiday_type ++ " holiday in " ++
  s.preferences.destination ++ " during " ++ s.preferences.month ++
  " for " ++ toString s.preferences.duration ++
  " days.\n    Include essentials based on expected weather and trip type.\n    "

/-- The activities prompt f-string (app.py 133-139). -/
def activitiesPrompt (s : GraphState) : String :=
  "\n    Based on the following preferences and itinerary, suggest unique local activities:\n    Preferences: " ++
  prefsJson s.preferences ++
  "\n    Itinerary: " ++ s.itinerary ++
  "\n\n    Provide suggestions in bullet points for each day if possible.\n    "

/-- The weather prompt f-string (app.py 148-152). -/
def weatherPrompt (s : GraphState) : String :=
  "\n    Based on the destination and month, provide a detailed weather forecast including temperature, precipitation, and advice for travelers:\n    Destination: " ++
  s.preferences.destination ++
  "\n    Month: " ++ s.preferences.month ++ "\n    "

/-- The dict returned by chat_node: chat_response always, chat_history only
on the success path, warning only on the failure path. -/
structure ChatUpdate where
  chat_response : Json
  chat_history : Option (List ChatEntry)
  warning : Option String

/-- A generator update dict holding one text field, plus warning on the
failure path; used for itinerary, weather, packing, food and activities
updates, which all have this shape. -/
structure TextUpdate where
  text : String
  warning : Option String
deriving DecidableEq, Repr

/-- The dict returned by fetch_useful_links: useful_links always, warning
only on the failure path. -/
structure LinksUpdate where
  useful_links : List Link
  warning : Option String
deriving DecidableEq, Repr

/-- The inner try of chat_node (app.py 65-69) on the stripped provider
text: json.loads then parsed.get("chat_response", stripped), where the
inner except catches only json.JSONDecodeError (the parse-failure branch),
while .get on a parsed non-dict value raises AttributeError, which escapes
to the outer except. -/
def chatResponseOf (jloads : JsonLoads) (stripped : String) :
    Except String Json :=
  match jloads stripped with
  | some (Json.obj fields) =>
    Except.ok ((jsonGet fields "chat_response").getD (Json.str stripped))
  | some _ =>
    Except.error "AttributeError: .get called on a non-dict JSON value"
  | none => Except.ok (Json.str stripped)

/-- chat_node (app.py 51-74), paired with the list of prompts it sends to
the provider; a failure of the provider call, or an AttributeError escaping
the inner try, lands in the outer except (app.py 73-74), which returns an
empty chat_response and a warning and no chat_history key. -/
def chat_node (llm : LLM) (jloads : JsonLoads) (state : GraphState) :
    ChatUpdate × List String :=
  let prompt := chatPrompt state
  match llm prompt with
  | Except.error e => (⟨Json.str "", none, some e⟩, [prompt])
  | Except.ok result =>
    match chatResponseOf jloads (pyStrip result) with
    | Except.ok response =>
      (⟨response,
        some (state.chat_history ++ [⟨state.user_question, response⟩]),
        none⟩, [prompt])
    | Except.error e => (⟨Json.str "", none, some e⟩, [prompt])

/-- The list comprehension at app.py 84-87: first 5 organic results, title
defaulting to "No title" and link to the empty string. -/
def linksOf (organic : List SearchResult) : List Link :=
  (organic.take 5).map (fun r => ⟨r.title.getD "No title", r.link.getD ""⟩)

/-- fetch_useful_links (app.py 76-90), paired with the list of queries it
sends to the search provider. -/
def fetch_useful_links (searchFn : SearchFn) (state : GraphState) :
    LinksUpdate × List String :=
  let query := linksQuery state
  match searchFn query with
  | Except.ok resp => (⟨linksOf (resp.organic.getD []), none⟩, [query])
  | Except.error e => (⟨[], some ("Failed to fetch links: " ++ e)⟩, [query])

/-- food_culture_recommender (app.py 93-104). -/
def food_culture_recommender (llm : LLM) (state : GraphState) :
    TextUpdate × List String :=
  let prompt := foodPrompt state
  match llm prompt with
  | Except.ok result => (⟨pyStrip result, none⟩, [prompt])
  | Except.error e => (⟨"", some e⟩, [prompt])

/-- generate_itinerary (app.py 107-119). -/
def generate_itinerary (llm : LLM) (state : GraphState) :
    TextUpdate × List String :=
  let prompt := itineraryPrompt state
  match llm prompt with
  | Except.ok result => (⟨pyStrip result, none⟩, [prompt])
  | Except.error e => (⟨"", some e⟩, [prompt])

/-- packing_list_generator (app.py 121-130). -/
def packing_list_generator (llm : LLM) (state : GraphState) :
    TextUpdate × List String :=
  let prompt := packingPrompt state
  match llm prompt with
  | Except.ok result => (⟨pyStrip result, none⟩, [prompt])
  | Except.error e => (⟨"", some e⟩, [prompt])

/-- recommend_activities (app.py 132-144). -/
def recommend_activities (llm : LLM) (state : GraphState) :
    TextUpdate × List String :=
  let prompt := activitiesPrompt state
  match llm prompt with
  | Except.ok result => (⟨pyStrip result, none⟩, [prompt])
  | Except.error e => (⟨"", some e⟩, [prompt])

/-- weather_forecaster (app.py 146-157). -/
def weather_forecaster (llm : LLM) (state : GraphState) :
    TextUpdate × List String :=
  let prompt := weatherPrompt state
  match llm prompt with
  | Except.ok result => (⟨pyStrip result, none⟩, [prompt])
  | Except.error e => (⟨"", some e⟩, [prompt])

/-- st.session_state.state.update(result) for a chat_node result dict
(app.py 402-403): keys present in the dict overwrite, absent keys are kept
(chat_history is absent on the failure path, warning on the success path). -/
def applyChatUpdate (s : GraphState) (u : ChatUpdate) : GraphState :=
  { s with
    chat_response := u.chat_response
    chat_history :=
      match u.chat_history with
      | some h => h
      | none => s.chat_history
    warning :=
      match u.warning with
      | some w => some w
      | none => s.warning }

/-- One chat interaction (app.py 399-404): the question is stored in
user_question, chat_node runs on the resulting state, and its update dict
is merged into the session state. -/
def chatInteraction (llm : LLM) (jloads : JsonLoads) (s : GraphState)
    (q : String) : GraphState :=
  let s1 := { s with user_question := q }
  applyChatUpdate s1 (chat_node llm jloads s1).1

/-- A sequence of chat interactions, one per question, in order. -/
def runChats (llm : LLM) (jloads : JsonLoads) (s : GraphState) :
    List String → GraphState
  | [] => s
  | q :: qs => runChats llm jloads (chatInteraction llm jloads s q) qs

/-- A chat interaction succeeds when chat_node takes its success path,
i.e. returns an update dict that carries a chat_history key. -/
def chatSuccess (llm : LLM) (jloads : JsonLoads) (s : GraphState)
    (q : String) : Prop :=
  ((chat_node llm jloads { s with user_question := q }).1.chat_history).isSome

/-- Every interaction of the sequence takes the success path, each judged
on the state the previous ones produced. -/
def allChatsSucceed (llm : LLM) (jloads : JsonLoads) (s : GraphState) :
    List String → Prop
  | [] => True
  | q :: qs =>
    chatSuccess llm jloads s q ∧
    allChatsSucceed llm jloads (chatInteraction llm jloads s q) qs

/-- st.session_state.state.update(result) for a generator result dict of
TextUpdate shape, writing the named session field; field selects which
session key the text lands in. -/
def applyTextUpdate (s : GraphState) (u : TextUpdate)
    (set : GraphState → String → GraphState) : GraphState :=
  let s1 := set s u.text
  { s1 with
    warning :=
      match u.warning with
      | some w => some w
      | none => s1.warning }

/-- The Weather button handler (app.py 344-348): call weather_forecaster on
the session state and merge its dict; the returned list is the prompts the
click sent to the provider. -/
def weatherClick (llm : LLM) (s : GraphState) : GraphState × List String :=
  let (u, calls) := weather_forecaster llm s
  (applyTextUpdate s u (fun st t => { st with weather_forecast := t }), calls)

/-- The Links button handler (app.py 338-342). -/
def linksClick (searchFn : SearchFn) (s : GraphState) :
    GraphState × List String :=
  let (u, calls) := fetch_useful_links searchFn s
  ({ s with
      useful_links := u.useful_links
      warning :=
        match u.warning with
        | some w => some w
        | none => s.warning }, calls)

/-- The Activities button handler (app.py 332-336). -/
def activitiesClick (llm : LLM) (s : GraphState) : GraphState × List String :=
  let (u, calls) := recommend_activities llm s
  (applyTextUpdate s u (fun st t => { st with activity_suggestions := t }),
   calls)

/-- The Packing button handler (app.py 350-354). -/
def packingClick (llm : LLM) (s : GraphState) : GraphState × List String :=
  let (u, calls) := packing_list_generator llm s
  (applyTextUpdate s u (fun st t => { st with packing_list := t }), calls)

/-- The Food and Culture button handler (app.py 356-360). -/
def foodClick (llm : LLM) (s : GraphState) : GraphState × List String :=
  let (u, calls) := food_culture_recommender llm s
  (applyTextUpdate s u (fun st t => { st with food_culture_info := t }), calls)

/-- A node-returned partial update restricted to the GraphState schema
channels; a key is none when the node did not write it.  The warning key of
a generator dict is not a schema channel of the GraphState TypedDict
(app.py 161-172), so it never reaches the graph state. -/
structure StateUpdate where
  preferences_text : Option String := none
  preferences : Option Preferences := none
  itinerary : Option String := none
  activity_suggestions : Option String := none
  useful_links : Option (List Link) := none
  weather_forecast : Option String := none
  packing_list : Option String := none
  food_culture_info : Option String := none
  chat_history : Option (List ChatEntry) := none
  user_question : Option String := none
  chat_response : Option Json := none

/-- Merge a node update into the state: written channels overwrite, the
rest keep their values. -/
def applyUpdate (s : GraphState) (u : StateUpdate) : GraphState :=
  { preferences_text := u.preferences_text.getD s.preferences_text
    preferences := u.preferences.getD s.preferences
    itinerary := u.itinerary.getD s.itinerary
    activity_suggestions := u.activity_suggestions.getD s.activity_suggestions
    useful_links := u.useful_links.getD s.useful_links
    weather_forecast := u.weather_forecast.getD s.weather_forecast
    packing_list := u.packing_list.getD s.packing_list
    food_culture_info := u.food_culture_info.getD s.food_culture_info
    chat_history := u.chat_history.getD s.chat_history
    user_question := u.user_question.getD s.user_question
    chat_response := u.chat_response.getD s.chat_response
    warning := s.warning }

/-- A graph node: state in, schema-channel update out. -/
def NodeFn : Type := GraphState → StateUpdate

/-- Modelled from the spec and the langgraph wiring (app.py 176-192), since
the langgraph library itself is outside this repository: a StateGraph
executor that starts at the entry node, applies each node, follows the
recorded edge, and stops at END or when fuel runs out (langgraph has a
recursion limit of 25, mirrored by the fuel). -/
def runGraph (nodes : List (String × NodeFn)) (edges : List (String × String)) :
    Nat → String → GraphState → GraphState
  | 0, _, s => s
  | Nat.succ fuel, current, s =>
    if current = "END" then s
    else
      match nodes.lookup current with
      | none => s
      | some f =>
        let s1 := applyUpdate s (f s)
        match edges.lookup current with
        | none => s1
        | some nxt => runGraph nodes edges fuel nxt s1

/-- The generate_itinerary node as registered in the graph (app.py 177):
its dict carries itinerary always, plus warning on failure, and warning is
dropped because it is not a GraphState schema channel. -/
def generateItineraryNode (llm : LLM) : NodeFn := fun s =>
  { itinerary := some (generate_itinerary llm s).1.text }

/-- The node table of the compiled workflow: every other add_node line of
app.py 178-183 is commented out in the source. -/
def workflowNodes (llm : LLM) : List (String × NodeFn) :=
  [("generate_itinerary", generateItineraryNode llm)]

/-- The edge table of the compiled workflow (app.py 185): the single edge
from generate_itinerary to END. -/
def workflowEdges : List (String × String) :=
  [("generate_itinerary", "END")]

/-- graph.invoke (app.py 192, 290): run the compiled single-node workflow
from its entry point. -/
def graphInvoke (llm : LLM) (s : GraphState) : GraphState :=
  runGraph (workflowNodes llm) workflowEdges 25 "generate_itinerary" s

/-- The preferences_text f-string of the submission handler (app.py 264). -/
def preferencesText (p : Preferences) : String :=
  "Destination: " ++ p.destination ++ "\nMonth: " ++ p.month ++
  "\nDuration: " ++ toString p.duration ++ " days\nPeople: " ++
  p.num_people ++ "\nType: " ++ p.holiday_type ++ "\nBudget: " ++
  p.budget_type ++ "\nAccommodation: " ++ p.accommodation ++ "\nVisa: " ++
  p.visa_status_options ++ "\nComments: " ++ p.comments

/-- The st.session_state.state.update at app.py 276-287: the new
preferences and preferences_text are stored and the five extras fields and
the three chat fields are cleared before the graph runs. -/
def resetState (s : GraphState) (p : Preferences) : GraphState :=
  { s with
    preferences_text := preferencesText p
    preferences := p
    chat_history := []
    user_question := ""
    chat_response := Json.str ""
    activity_suggestions := ""
    useful_links := []
    weather_forecast := ""
    packing_list := ""
    food_culture_info := "" }

/-- The submission handler (app.py 263-291): store the new preferences,
clear the five extras fields and the chat fields, invoke the graph on the
resulting state and merge its result.  graph.invoke returns the full final
schema state, so merging it overwrites every schema key with the final
values; the non-schema warning key of the session dict is untouched, which
the model reflects because runGraph never writes warning. -/
def submitHandler (llm : LLM) (s : GraphState) (p : Preferences) : GraphState :=
  graphInvoke llm (resetState s p)

/-- Concrete preferences used to evaluate the model on closed inputs. -/
def samplePrefs : Preferences :=
  ⟨"Lisbon", "May", 5, "2", "City Break", "Mid-Range", "Hotel",
   "No visa required", "window seats please"⟩

/-- A concrete session state as it stands after a successful submission. -/
def sampleState : GraphState :=
  { preferences_text := preferencesText samplePrefs
    preferences := samplePrefs
    itinerary := "Day 1: Arrive."
    activity_suggestions := ""
    useful_links := []
    weather_forecast := ""
    packing_list := ""
    food_culture_info := ""
    chat_history := []
    user_question := ""
    chat_response := Json.str ""
    warning := none }

/-- A second concrete state: same destination and month as sampleState but
different duration, comments, itinerary and chat history. -/
def sampleStateAlt : GraphState :=
  { sampleState with
    preferences := { samplePrefs with duration := 12, comments := "bring kids" }
    itinerary := "A completely different plan."
    chat_history := [⟨"earlier question", Json.str "earlier answer"⟩] }

/-- A deterministic provider that always answers the same text. -/
def llmOk : LLM := fun _ => Except.ok "Sunny in May."

/-- A provider whose reply carries surrounding whitespace. -/
def llmPadded : LLM := fun _ => Except.ok "  Day 1: Arrive.  "

/-- A provider reply that is the canonical structured chat payload. -/
def llmJson : LLM := fun _ =>
  Except.ok "\x7b\"chat_response\": \"hi\"\x7d"

/-- A provider reply that is plain text, not JSON. -/
def llmText : LLM := fun _ => Except.ok "Pack an umbrella."

/-- A provider that always fails, str(e) being "quota exhausted". -/
def llmFail : LLM := fun _ => Except.error "quota exhausted"

/-- A search provider that always fails with the same exception text. -/
def searchFail : SearchFn := fun _ => Except.error "quota exhausted"

/-- A stub search response with 8 organic results, some missing a title or
a link. -/
def stubOrganic : List SearchResult :=
  [⟨some "A", some "https://a.example"⟩,
   ⟨none, some "https://b.example"⟩,
   ⟨some "C", none⟩,
   ⟨some "D", some "https://d.example"⟩,
   ⟨some "E", some "https://e.example"⟩,
   ⟨some "F", some "https://f.example"⟩,
   ⟨some "G", some "https://g.example"⟩,
   ⟨some "H", some "https://h.example"⟩]

/-- A deterministic search provider that returns the 8-result stub. -/
def searchStub : SearchFn := fun _ => Except.ok ⟨some stubOrganic⟩

/-- A json.loads stub: parses the canonical structured chat payload and
raises JSONDecodeError on everything else. -/
def jloadsStub : JsonLoads := fun str =>
  if str = "\x7b\"chat_response\": \"hi\"\x7d" then
    some (Json.obj [("chat_response", Json.str "hi")])
  else none

/-- A json.loads that fails on every input, for providers whose replies are
never valid JSON. -/
def jloadsNone : JsonLoads := fun _ => none

/- Helper lemmas shared by the claim theorems. -/

theorem weather_calls (llm : LLM) (s : GraphState) :
    (weather_forecaster llm s).2 = [weatherPrompt s] := by
  unfold weather_forecaster
  rcases h : llm (weatherPrompt s) with r | e <;> simp [h]

theorem links_calls (searchFn : SearchFn) (s : GraphState) :
    (fetch_useful_links searchFn s).2 = [linksQuery s] := by
  unfold fetch_useful_links
  rcases h : searchFn (linksQuery s) with r | e <;> simp [h]

theorem activities_calls (llm : LLM) (s : GraphState) :
    (recommend_activities llm s).2 = [activitiesPrompt s] := by
  unfold recommend_activities
  rcases h : llm (activitiesPrompt s) with r | e <;> simp [h]

theorem packing_calls (llm : LLM) (s : GraphState) :
    (packing_list_generator llm s).2 = [packingPrompt s] := by
  unfold packing_list_generator
  rcases h : llm (packingPrompt s) with r | e <;> simp [h]

theorem food_calls (llm : LLM) (s : GraphState) :
    (food_culture_recommender llm s).2 = [foodPrompt s] := by
  unfold food_culture_recommender
  rcases h : llm (foodPrompt s) with r | e <;> simp [h]

theorem itinerary_calls (llm : LLM) (s : GraphState) :
    (generate_itinerary llm s).2 = [itineraryPrompt s] := by
  unfold generate_itinerary
  rcases h : llm (itineraryPrompt s) with r | e <;> simp [h]

theorem chat_calls (llm : LLM) (jloads : JsonLoads) (s : GraphState) :
    (chat_node llm jloads s).2 = [chatPrompt s] := by
  unfold chat_node
  rcases h : llm (chatPrompt s) with e | r
  · simp [h]
  · rcases h2 : chatResponseOf jloads (pyStrip r) with e2 | j <;> simp [h, h2]

theorem weatherClick_calls (llm : LLM) (s : GraphState) :
    (weatherClick llm s).2 = [weatherPrompt s] := by
  unfold weatherClick
  rw [weather_calls]

theorem graphInvoke_eq (llm : LLM) (s : GraphState) :
    graphInvoke llm s =
      { s with itinerary := (generate_itinerary llm s).1.text } := by
  rfl

/-- Whether the provider call on the given prompt succeeds. -/
def callSucceeds (llm : LLM) (p : String) : Bool :=
  match llm p with
  | Except.ok _ => true
  | Except.error _ => false

/-- The session state and issued provider calls after one Weather click on
the sample state, with a deterministic always-successful provider. -/
def weatherClickOnce : GraphState × List String := weatherClick llmOk sampleState

/-- A second Weather click, on the state the first click produced; the
preferences are identical to those of the first click. -/
def weatherClickTwice : GraphState × List String :=
  weatherClick llmOk weatherClickOnce.1

/-- All provider calls the two clicks issued together. -/
def twoClickCalls : List String := weatherClickOnce.2 ++ weatherClickTwice.2

theorem weatherClick_preferences (llm : LLM) (s : GraphState) :
    (weatherClick llm s).1.preferences = s.preferences := rfl

theorem linksClick_calls (searchFn : SearchFn) (s : GraphState) :
    (linksClick searchFn s).2 = [linksQuery s] :=
  links_calls searchFn s

theorem activitiesClick_calls (llm : LLM) (s : GraphState) :
    (activitiesClick llm s).2 = [activitiesPrompt s] :=
  activities_calls llm s

theorem packingClick_calls (llm : LLM) (s : GraphState) :
    (packingClick llm s).2 = [packingPrompt s] :=
  packing_calls llm s

theorem foodClick_calls (llm : LLM) (s : GraphState) :
    (foodClick llm s).2 = [foodPrompt s] :=
  food_calls llm s

/-- C1 counterexample: two consecutive Weather clicks with identical
preferences and a deterministic, always-successful provider issue two
successful provider calls, not at most one.  No cache exists anywhere in
the code, so the second invocation recomputes instead of returning a
stored result. -/
theorem weather_double_click_issues_two_calls :
    weatherClickOnce.1.preferences = sampleState.preferences ∧
    twoClickCalls.length = 2 ∧
    ¬ twoClickCalls.length ≤ 1 ∧
    twoClickCalls.all (callSucceeds llmOk) = true :=
  ⟨rfl, rfl, by decide, rfl⟩

/-- C1 amended: there is no caching: every generator invocation issues
exactly one provider call, so invoking the same generator a second time
with identical preferences issues a second provider call (two clicks, two
calls) rather than returning a stored result. -/
theorem generators_issue_one_call_per_invocation
    (llm : LLM) (searchFn : SearchFn) (jloads : JsonLoads) (s : GraphState) :
    (weatherClick llm s).2.length = 1 ∧
    (linksClick searchFn s).2.length = 1 ∧
    (activitiesClick llm s).2.length = 1 ∧
    (packingClick llm s).2.length = 1 ∧
    (foodClick llm s).2.length = 1 ∧
    (chat_node llm jloads s).2.length = 1 ∧
    (generate_itinerary llm s).2.length = 1 ∧
    (weatherClick llm s).1.preferences = s.preferences ∧
    ((weatherClick llm s).2 ++ (weatherClick llm (weatherClick llm s).1).2).length = 2 := by
  refine ⟨?_, ?_, ?_, ?_, ?_, ?_, ?_, rfl, ?_⟩
  · simp [weatherClick_calls]
  · simp [linksClick_calls]
  · simp [activitiesClick_calls]
  · simp [packingClick_calls]
  · simp [foodClick_calls]
  · simp [chat_calls]
  · simp [itinerary_calls]
  · simp [weatherClick_calls]

/-- C2: when the provider call raises, every generator catches the failure
at its own boundary and returns an empty result (empty string, or empty
list for useful links) paired with a warning; by construction of the model
no exception propagates (each generator is a total function into its
update type). -/
theorem provider_failure_yields_empty_and_warning
    (llm : LLM) (searchFn : SearchFn) (jloads : JsonLoads) (s : GraphState)
    (e : String) (hllm : ∀ p, llm p = Except.error e)
    (hsearch : ∀ q, searchFn q = Except.error e) :
    (generate_itinerary llm s).1 = ⟨"", some e⟩ ∧
    (weather_forecaster llm s).1 = ⟨"", some e⟩ ∧
    (packing_list_generator llm s).1 = ⟨"", some e⟩ ∧
    (food_culture_recommender llm s).1 = ⟨"", some e⟩ ∧
    (recommend_activities llm s).1 = ⟨"", some e⟩ ∧
    (fetch_useful_links searchFn s).1 =
      ⟨[], some ("Failed to fetch links: " ++ e)⟩ ∧
    (chat_node llm jloads s).1 = ⟨Json.str "", none, some e⟩ := by
  refine ⟨?_, ?_, ?_, ?_, ?_, ?_, ?_⟩ <;>
    simp [generate_itinerary, weather_forecaster, packing_list_generator,
      food_culture_recommender, recommend_activities, fetch_useful_links,
      chat_node, hllm, hsearch]

/-- Witness for C2 at concrete failing providers. -/
theorem provider_failure_yields_empty_and_warning_witness :
    (generate_itinerary llmFail sampleState).1 = ⟨"", some "quota exhausted"⟩ ∧
    (weather_forecaster llmFail sampleState).1 = ⟨"", some "quota exhausted"⟩ ∧
    (packing_list_generator llmFail sampleState).1 =
      ⟨"", some "quota exhausted"⟩ ∧
    (food_culture_recommender llmFail sampleState).1 =
      ⟨"", some "quota exhausted"⟩ ∧
    (recommend_activities llmFail sampleState).1 =
      ⟨"", some "quota exhausted"⟩ ∧
    (fetch_useful_links searchFail sampleState).1 =
      ⟨[], some ("Failed to fetch links: " ++ "quota exhausted")⟩ ∧
    (chat_node llmFail jloadsNone sampleState).1 =
      ⟨Json.str "", none, some "quota exhausted"⟩ :=
  provider_failure_yields_empty_and_warning llmFail searchFail jloadsNone
    sampleState "quota exhausted" (fun _ => rfl) (fun _ => rfl)

/-- C8 counterexample: a provider reply carrying surrounding whitespace is
not returned verbatim: generate_itinerary strips it. -/
theorem itinerary_not_verbatim :
    (generate_itinerary llmPadded sampleState).1.text = "Day 1: Arrive." ∧
    (generate_itinerary llmPadded sampleState).1.text ≠ "  Day 1: Arrive.  " :=
  ⟨rfl, by decide⟩

/-- C8 amended: for every provider reply, generate_itinerary returns the
reply text with leading and trailing whitespace stripped and no warning;
it performs no other parsing, validation or modification. -/
theorem itinerary_returns_trimmed_reply
    (llm : LLM) (s : GraphState) (reply : String)
    (hok : llm (itineraryPrompt s) = Except.ok reply) :
    (generate_itinerary llm s).1 = ⟨pyStrip reply, none⟩ := by
  simp [generate_itinerary, hok]

/-- Witness for the amended C8 at a concrete padded reply. -/
theorem itinerary_returns_trimmed_reply_witness :
    (generate_itinerary llmPadded sampleState).1 = ⟨"Day 1: Arrive.", none⟩ :=
  itinerary_returns_trimmed_reply llmPadded sampleState "  Day 1: Arrive.  " rfl

/-- C9: the compiled workflow graph is a single-node pass-through: invoking
it on any input state equals updating the itinerary field with the text
that calling generate_itinerary directly on that state produces, every
other field kept unchanged (no branching, retry or further
transformation). -/
theorem graph_single_node_pass_through (llm : LLM) (s : GraphState) :
    graphInvoke llm s =
      { s with itinerary := (generate_itinerary llm s).1.text } :=
  graphInvoke_eq llm s

theorem take_get?_of_lt {α : Type} :
    ∀ (l : List α) (n i : Nat), i < n → (l.take n).get? i = l.get? i := by
  intro l
  induction l with
  | nil => intro n i _; simp
  | cons a as ih =>
    intro n i h
    cases n with
    | zero => omega
    | succ n =>
      cases i with
      | zero => simp
      | succ i => simpa using ih n i (by omega)

theorem map_get? {α β : Type} (f : α → β) :
    ∀ (l : List α) (i : Nat), (l.map f).get? i = (l.get? i).map f := by
  intro l
  induction l with
  | nil => intro i; simp
  | cons a as ih =>
    intro i
    cases i with
    | zero => simp
    | succ i => exact ih i

theorem get?_none_of_len_le {α : Type} :
    ∀ (l : List α) (i : Nat), l.length ≤ i → l.get? i = none := by
  intro l
  induction l with
  | nil => intro i _; simp
  | cons a as ih =>
    intro i h
    cases i with
    | zero => simp at h
    | succ i => simpa using ih i (by simp at h; omega)

theorem linksOf_length (l : List SearchResult) :
    (linksOf l).length = min 5 l.length := by
  simp [linksOf]

theorem linksOf_get?_lt (l : List SearchResult) (i : Nat) (h : i < 5) :
    (linksOf l).get? i =
      (l.get? i).map
        (fun r => (⟨r.title.getD "No title", r.link.getD ""⟩ : Link)) := by
  unfold linksOf
  rw [map_get?, take_get?_of_lt l 5 i h]

/-- C3: on a successful search response, the UsefulLinks generator returns
exactly the first min(5, n) organic results in their original order, where
n is the number of organic results, a missing title defaulting to
"No title" and a missing link to the empty string; every result beyond the
5th is discarded. -/
theorem useful_links_truncation
    (searchFn : SearchFn) (s : GraphState) (resp : SearchResponse)
    (hresp : searchFn (linksQuery s) = Except.ok resp) :
    (fetch_useful_links searchFn s).1.useful_links.length =
      min 5 (resp.organic.getD []).length ∧
    (∀ i, i < 5 →
      (fetch_useful_links searchFn s).1.useful_links.get? i =
        ((resp.organic.getD []).get? i).map
          (fun r => (⟨r.title.getD "No title", r.link.getD ""⟩ : Link))) ∧
    (∀ i, 5 ≤ i →
      (fetch_useful_links searchFn s).1.useful_links.get? i = none) := by
  have hlinks : (fetch_useful_links searchFn s).1.useful_links =
      linksOf (resp.organic.getD []) := by
    simp [fetch_useful_links, hresp]
  refine ⟨?_, ?_, ?_⟩
  · rw [hlinks, linksOf_length]
  · intro i hi
    rw [hlinks, linksOf_get?_lt _ _ hi]
  · intro i hi
    refine get?_none_of_len_le _ i ?_
    rw [hlinks, linksOf_length]
    omega

/-- Witness for C3 on the 8-result stub: the length equation, the entry at
index 1 (whose title is missing and defaults), and discarding at index 7. -/
theorem useful_links_truncation_witness :
    (fetch_useful_links searchStub sampleState).1.useful_links.length =
      min 5 stubOrganic.length ∧
    (fetch_useful_links searchStub sampleState).1.useful_links.get? 1 =
      (stubOrganic.get? 1).map
        (fun r => (⟨r.title.getD "No title", r.link.getD ""⟩ : Link)) ∧
    (fetch_useful_links searchStub sampleState).1.useful_links.get? 7 = none :=
  ⟨(useful_links_truncation searchStub sampleState ⟨some stubOrganic⟩ rfl).1,
   (useful_links_truncation searchStub sampleState ⟨some stubOrganic⟩ rfl).2.1
     1 (by decide),
   (useful_links_truncation searchStub sampleState ⟨some stubOrganic⟩ rfl).2.2
     7 (by decide)⟩

/-- C4: if the stripped provider reply parses as a JSON object containing a
chat_response field, the chat response equals the value of that field; if
parsing raises JSONDecodeError, the chat response equals the stripped raw
reply verbatim. -/
theorem chat_parse_and_fallback
    (llm : LLM) (jloads : JsonLoads) (s : GraphState) (reply : String)
    (hok : llm (chatPrompt s) = Except.ok reply) :
    (∀ fields v, jloads (pyStrip reply) = some (Json.obj fields) →
      jsonGet fields "chat_response" = some v →
      (chat_node llm jloads s).1.chat_response = v) ∧
    (jloads (pyStrip reply) = none →
      (chat_node llm jloads s).1.chat_response = Json.str (pyStrip reply)) := by
  constructor
  · intro fields v hparse hget
    simp [chat_node, hok, chatResponseOf, hparse, hget]
  · intro hparse
    simp [chat_node, hok, chatResponseOf, hparse]

/-- Witness for C4: the structured branch on the canonical payload, and the
fallback branch on a plain-text reply. -/
theorem chat_parse_and_fallback_witness :
    (chat_node llmJson jloadsStub sampleState).1.chat_response =
      Json.str "hi" ∧
    (chat_node llmText jloadsStub sampleState).1.chat_response =
      Json.str "Pack an umbrella." :=
  ⟨(chat_parse_and_fallback llmJson jloadsStub sampleState
      "\x7b\"chat_response\": \"hi\"\x7d" rfl).1
      [("chat_response", Json.str "hi")] (Json.str "hi") rfl rfl,
   (chat_parse_and_fallback llmText jloadsStub sampleState
      "Pack an umbrella." rfl).2 rfl⟩

/-- C5 counterexample: on a concrete failed chat interaction the transcript
stays empty: no entry holds the question asked and no entry records the
failure, so the question is silently dropped from the transcript; the
failure lands only in the warning field of the session state, which is not
a transcript entry. -/
theorem chat_failure_drops_question :
    (chatInteraction llmFail jloadsNone sampleState
        "Is it rainy?").chat_history = [] ∧
    ((chatInteraction llmFail jloadsNone sampleState
        "Is it rainy?").chat_history.map ChatEntry.question).contains
      "Is it rainy?" = false ∧
    (chatInteraction llmFail jloadsNone sampleState "Is it rainy?").warning =
      some "quota exhausted" :=
  ⟨rfl, rfl, rfl⟩

/-- C5 amended: a provider failure during a chat interaction leaves the
transcript unchanged: the question is not appended, so the transcript never
holds a question without a response, but no transcript entry records the
failure either; the chat response is set to the empty string and the
failure is recorded only in the warning field of the session state. -/
theorem chat_failure_leaves_transcript_unchanged
    (llm : LLM) (jloads : JsonLoads) (s : GraphState) (q e : String)
    (hfail : llm (chatPrompt { s with user_question := q }) =
      Except.error e) :
    (chatInteraction llm jloads s q).chat_history = s.chat_history ∧
    (chatInteraction llm jloads s q).chat_response = Json.str "" ∧
    (chatInteraction llm jloads s q).warning = some e := by
  refine ⟨?_, ?_, ?_⟩ <;>
    simp [chatInteraction, applyChatUpdate, chat_node, hfail]

/-- Witness for the amended C5 at a concrete failing provider. -/
theorem chat_failure_leaves_transcript_unchanged_witness :
    (chatInteraction llmFail jloadsNone sampleStateAlt
        "Is it rainy?").chat_history = sampleStateAlt.chat_history ∧
    (chatInteraction llmFail jloadsNone sampleStateAlt
        "Is it rainy?").chat_response = Json.str "" ∧
    (chatInteraction llmFail jloadsNone sampleStateAlt "Is it rainy?").warning =
      some "quota exhausted" :=
  chat_failure_leaves_transcript_unchanged llmFail jloadsNone sampleStateAlt
    "Is it rainy?" "quota exhausted" rfl

theorem take_append_len {α : Type} :
    ∀ (l m : List α), (l ++ m).take l.length = l := by
  intro l m
  induction l with
  | nil => simp
  | cons a as ih => exact congrArg (List.cons a) ih

theorem chatSuccess_append (llm : LLM) (jloads : JsonLoads) (s : GraphState)
    (q : String) (h : chatSuccess llm jloads s q) :
    ∃ r, (chatInteraction llm jloads s q).chat_history =
      s.chat_history ++ [⟨q, r⟩] := by
  unfold chatSuccess at h
  rcases hllm : llm (chatPrompt { s with user_question := q }) with e | r
  · simp [chat_node, hllm] at h
  · rcases h2 : chatResponseOf jloads (pyStrip r) with e2 | response
    · simp [chat_node, hllm, h2] at h
    · exact ⟨response, by
        simp [chatInteraction, applyChatUpdate, chat_node, hllm, h2]⟩

theorem runChats_chat_history (llm : LLM) (jloads : JsonLoads) :
    ∀ (qs : List String) (s : GraphState), allChatsSucceed llm jloads s qs →
      ∃ L, (runChats llm jloads s qs).chat_history = s.chat_history ++ L ∧
        L.map ChatEntry.question = qs := by
  intro qs
  induction qs with
  | nil => intro s _; exact ⟨[], by simp [runChats], rfl⟩
  | cons q qs ih =>
    intro s h
    simp only [allChatsSucceed] at h
    obtain ⟨hq, hrest⟩ := h
    obtain ⟨r, hr⟩ := chatSuccess_append llm jloads s q hq
    obtain ⟨L, hL, hmap⟩ := ih (chatInteraction llm jloads s q) hrest
    refine ⟨⟨q, r⟩ :: L, ?_, ?_⟩
    · show (runChats llm jloads (chatInteraction llm jloads s q) qs).chat_history = _
      rw [hL, hr]
      simp
    · simp [hmap]

/-- C6: after a sequence of successful chat interactions, the transcript
holds exactly the prior entries followed by one entry per question in
submission order: its length grows by the number of questions, the prior
transcript survives unchanged at the front (nothing removed or reordered),
and the appended questions are the submitted ones in order. -/
theorem chat_transcript_append_only
    (llm : LLM) (jloads : JsonLoads) (s : GraphState) (qs : List String)
    (h : allChatsSucceed llm jloads s qs) :
    (runChats llm jloads s qs).chat_history.length =
      s.chat_history.length + qs.length ∧
    (runChats llm jloads s qs).chat_history.take s.chat_history.length =
      s.chat_history ∧
    (runChats llm jloads s qs).chat_history.map ChatEntry.question =
      s.chat_history.map ChatEntry.question ++ qs := by
  obtain ⟨L, hL, hmap⟩ := runChats_chat_history llm jloads qs s h
  refine ⟨?_, ?_, ?_⟩
  · rw [hL, List.length_append, ← hmap, List.length_map]
  · rw [hL, take_append_len]
  · rw [hL, List.map_append, hmap]

/-- Witness for C6: two successful chat interactions on the sample state,
whose transcript starts empty. -/
theorem chat_transcript_append_only_witness :
    (runChats llmText jloadsNone sampleState
        ["q1", "q2"]).chat_history.length =
      sampleState.chat_history.length + 2 ∧
    (runChats llmText jloadsNone sampleState
        ["q1", "q2"]).chat_history.take sampleState.chat_history.length =
      sampleState.chat_history ∧
    (runChats llmText jloadsNone sampleState ["q1", "q2"]).chat_history.map
        ChatEntry.question =
      sampleState.chat_history.map ChatEntry.question ++ ["q1", "q2"] :=
  chat_transcript_append_only llmText jloadsNone sampleState ["q1", "q2"]
    ⟨rfl, rfl, trivial⟩

/-- C7: a new itinerary submission on an existing session clears the five
extras fields and the chat fields, replaces the preferences and their
serialized text by the newly submitted ones, and replaces the itinerary by
the text the generator produces for the reset state; no stale extra or
chat entry survives. -/
theorem submission_resets_session
    (llm : LLM) (s : GraphState) (p : Preferences) :
    (submitHandler llm s p).preferences = p ∧
    (submitHandler llm s p).preferences_text = preferencesText p ∧
    (submitHandler llm s p).chat_history = [] ∧
    (submitHandler llm s p).user_question = "" ∧
    (submitHandler llm s p).chat_response = Json.str "" ∧
    (submitHandler llm s p).activity_suggestions = "" ∧
    (submitHandler llm s p).useful_links = [] ∧
    (submitHandler llm s p).weather_forecast = "" ∧
    (submitHandler llm s p).packing_list = "" ∧
    (submitHandler llm s p).food_culture_info = "" ∧
    (submitHandler llm s p).itinerary =
      (generate_itinerary llm (resetState s p)).1.text := by
  unfold submitHandler
  rw [graphInvoke_eq]
  exact ⟨rfl, rfl, rfl, rfl, rfl, rfl, rfl, rfl, rfl, rfl, rfl⟩

/-- C10: the UsefulLinks and Weather generators read only the destination
and month fields of the preferences: two states agreeing on those two
fields produce identical queries and prompts and hence identical generator
outputs (same update and same issued calls) for any fixed providers, which
as pure functions are deterministic. -/
theorem extras_depend_only_on_destination_month
    (llm : LLM) (searchFn : SearchFn) (s1 s2 : GraphState)
    (hd : s1.preferences.destination = s2.preferences.destination)
    (hm : s1.preferences.month = s2.preferences.month) :
    weatherPrompt s1 = weatherPrompt s2 ∧
    linksQuery s1 = linksQuery s2 ∧
    weather_forecaster llm s1 = weather_forecaster llm s2 ∧
    fetch_useful_links searchFn s1 = fetch_useful_links searchFn s2 := by
  have hw : weatherPrompt s1 = weatherPrompt s2 := by
    unfold weatherPrompt
    rw [hd, hm]
  have hl : linksQuery s1 = linksQuery s2 := by
    unfold linksQuery
    rw [hd, hm]
  refine ⟨hw, hl, ?_, ?_⟩
  · unfold weather_forecaster
    rw [hw]
  · unfold fetch_useful_links
    rw [hl]

/-- Witness for C10: sampleStateAlt differs from sampleState in duration,
comments, itinerary and chat history but shares destination and month, and
both generators produce identical outputs on the two states. -/
theorem extras_depend_only_on_destination_month_witness :
    weather_forecaster llmOk sampleState =
      weather_forecaster llmOk sampleStateAlt ∧
    fetch_useful_links searchStub sampleState =
      fetch_useful_links searchStub sampleStateAlt :=
  ⟨(extras_depend_only_on_destination_month llmOk searchStub sampleState
      sampleStateAlt rfl rfl).2.2.1,
   (extras_depend_only_on_destination_month llmOk searchStub sampleState
      sampleStateAlt rfl rfl).2.2.2⟩

end TravelPlanner
